import Mathlib

/-!
Shallow embedding of the FlaskForge project-scaffolding generator
(src/flaskforge.py and src/fforge.py) and verification of the
specification's claims about it.

The generator is modelled as a pure pipeline over an explicit `Oracle`
describing the environment (filesystem success/failure, external command
exit statuses, platform), producing a `RunState` that records the trace of
attempted stages, the filesystem operations performed, the external
commands invoked, the error-log entries, and the activation-command
attribute, together with an optional uncaught Python exception.
-/

/-! ## Python string primitives used by the source -/

/-- Python whitespace as stripped by `str.strip()`. -/
def isPyWS (c : Char) : Bool :=
  c = ' ' || c = '\t' || c = '\n' || c = '\r' || c = '\x0b' || c = '\x0c'

def dropLeadingWS : List Char → List Char
  | [] => []
  | c :: cs => if isPyWS c then dropLeadingWS cs else c :: cs

/-- Embedding of Python `str.strip()`. -/
def pyStrip (s : String) : String :=
  String.mk ((dropLeadingWS (dropLeadingWS s.data.reverse).reverse))

/-- Splitting a character list at every occurrence of `sep`,
with Python `str.split(sep)` semantics (blank segments kept). -/
def splitCharAux (sep : Char) : List Char → List String
  | [] => [""]
  | c :: cs =>
    let r := splitCharAux sep cs
    if c = sep then "" :: r
    else
      match r with
      | [] => [String.mk [c]]
      | h :: t => String.mk (c :: h.data) :: t

/-- Embedding of Python `str.split(sep)` for a one-character separator. -/
def pySplit (s : String) (sep : Char) : List String :=
  splitCharAux sep s.data

/-- Embedding of Python `str.capitalize()`: first character uppercased,
all remaining characters lowercased. -/
def pyCapitalize (s : String) : String :=
  match s.data with
  | [] => ""
  | c :: cs => String.mk (c.toUpper :: cs.map Char.toLower)

/-- Embedding of Python `str.join` over a list (`sep.join(parts)`). -/
def joinWith (sep : String) : List String → String
  | [] => ""
  | [x] => x
  | x :: y :: xs => x ++ sep ++ joinWith sep (y :: xs)

/-- The substring-containment property: `pat` occurs inside `s`. -/
def strContains (s pat : String) : Prop :=
  ∃ pre post, s = pre ++ (pat ++ post)

/-! ## Path model (`os.path`) -/

/-- Embedding of `os.path.isabs`. -/
def pyIsAbs (p : String) : Bool :=
  match p.data with
  | [] => false
  | c :: _ => c = '/'

/-- Embedding of `os.path.join` for two components. -/
def joinPath (a b : String) : String :=
  if pyIsAbs b then b else if a = "" then b else a ++ "/" ++ b

/-- Embedding of `os.path.dirname`. -/
def pyDirname (p : String) : String :=
  let parts := pySplit p '/'
  if parts.length ≤ 1 then "" else joinWith "/" parts.dropLast

/-! ## Logging model -/

def CRITICAL : Nat := 50
def ERROR : Nat := 40
def WARNING : Nat := 30
def INFO : Nat := 20
def DEBUG : Nat := 10

/-- The `log_levels` dictionary of `setup_logging`. -/
def logLevels : List (Int × Nat) :=
  [(0, CRITICAL), (1, ERROR), (2, WARNING), (3, INFO), (4, DEBUG)]

/-- Embedding of `log_levels.get(self.verbosity, logging.INFO)`. -/
def setupLogLevel (v : Int) : Nat :=
  (logLevels.lookup v).getD INFO

/-! ## Configuration and environment-path computation -/

/-- The generator's configuration, as assembled in `main`. -/
structure Config where
  projectName : String
  blueprints : List String
  dependencies : List String
  verbosity : Int
  template : String
  configPath : String
  postGenHooks : String
  venvDir : Option String
deriving DecidableEq

/-- Embedding of the `__init__` expression
`os.path.join(self.project_path, '.fforge') or os.path.join(self.project_path, venv_dir)`:
Python `or` returns its left operand when that operand is truthy
(a nonempty string), and only then evaluates the right operand. -/
def computeVenvDir (pp : String) (venvDir : Option String) : String :=
  let fixed := joinPath pp ".fforge"
  if fixed = "" then joinPath pp (venvDir.getD "") else fixed

/-! ## Effects, exceptions and run state -/

inductive FsOp where
  | mkDir (path : String)
  | write (path : String) (content : String)
deriving DecidableEq

inductive ExtCmd where
  | argv (args : List String) (dir : Option String)
  | shell (cmd : String) (dir : Option String)
deriving DecidableEq

inductive PyExc where
  | calledProcessError
  | osError
  | ioError
  | attributeError
deriving DecidableEq

inductive Stage where
  | createDirectories
  | createEnvironment
  | installDependencies
  | renderTemplateSet
  | generateBlueprint (bp : String)
  | writeInitFile
  | writeModelsFile
  | writeDockerFiles
  | writeCiFiles
  | initializeDatabase
  | runPostGenHooks
  | done
deriving DecidableEq

/-- The environment a run executes against: working directory, the
generator's installation directory, platform, which filesystem operations
succeed, whether `python -m venv` succeeds, which shell commands exit
zero, and the template files found by `os.walk` with their contents. -/
structure Oracle where
  cwd : String
  installDir : String
  windows : Bool
  mkdirOk : String → Bool
  venvCreateOk : Bool
  cmdOk : String → Bool
  templateFiles : List String
  readOk : String → Bool
  readContent : String → String
  writeOk : String → Bool

/-- Observable state accumulated by a run. -/
structure RunState where
  trace : List Stage
  ops : List FsOp
  cmds : List ExtCmd
  errLog : List String
  activate : Option String
deriving DecidableEq

def initState : RunState := ⟨[], [], [], [], none⟩

def withStage (s : Stage) (st : RunState) : RunState :=
  { st with trace := st.trace ++ [s] }

/-- Exit code of the Python process: 0 on normal return from `main`,
1 when an uncaught exception reaches the top level. -/
def exitCode : RunState × Option PyExc → Nat
  | (_, none) => 0
  | (_, some _) => 1

/-! ## Generated file contents (verbatim from the source f-strings) -/

/-- The route decorator emitted into a blueprint's `routes.py`. -/
def routeDecorator (bp : String) : String :=
  "@" ++ bp ++ ".route(\x27/" ++ bp ++ "_home\x27)"

/-- Content of a blueprint's `routes.py`. -/
def routesContent (bp : String) : String :=
  "from flask import Blueprint, render_template\n" ++ bp ++
    " = Blueprint(\x27" ++ bp ++
    "\x27, __name__, template_folder=\x27templates\x27, static_folder=\x27static\x27)\n\n" ++
    (routeDecorator bp ++
      ("\ndef " ++ bp ++ "_home():\n    return render_template(\x27" ++ bp ++ "/" ++ bp ++
        "_home.html\x27)\n"))

/-- Content of a blueprint's `__init__.py`. -/
def bpInitContent (bp : String) : String :=
  "from .routes import " ++ bp

/-- Content of a blueprint's `forms.py`. -/
def formsContent : String :=
  "from flask_wtf import FlaskForm\nfrom wtforms import StringField, PasswordField, SubmitField\nfrom wtforms.validators import DataRequired\n"

/-- The heading emitted into a blueprint's home template. -/
def headingText (bp : String) : String :=
  "<h1>Welcome to the " ++ pyCapitalize bp ++ " Home Page</h1>"

/-- Content of a blueprint's `templates/<bp>_home.html`. -/
def homeHtmlContent (bp : String) : String :=
  "\x7b% extends \"base.html\" %\x7d\n\x7b% block content %\x7d\n" ++
    (headingText bp ++ "\n\x7b% endblock %\x7d\n")

/-- Content of the application package's `__init__.py`. -/
def appInitContent : String :=
  "from flask import Flask\nfrom flask_sqlalchemy import SQLAlchemy\nfrom flask_migrate import Migrate\n\ndb = SQLAlchemy()\nmigrate = Migrate()\n\ndef create_app():\n    app = Flask(__name__)\n    app.config.from_pyfile(\x27config.py\x27)\n\n    db.init_app(app)\n    migrate.init_app(app, db)\n\n    from . import routes\n    app.register_blueprint(routes.main_bp)\n\n    return app\n"

/-- Content of the application package's `models.py`. -/
def modelsContent : String :=
  "from . import db\n\nclass User(db.Model):\n    id = db.Column(db.Integer, primary_key=True)\n    username = db.Column(db.String(64), index=True, unique=True)\n    email = db.Column(db.String(120), index=True, unique=True)\n    password_hash = db.Column(db.String(128))\n\n    def __repr__(self):\n        return f\x27<User \x7bself.username\x7d>\x27\n"

/-- Content of the project's `Dockerfile`. -/
def dockerfileContent : String :=
  "FROM python:3.8-slim-buster\nWORKDIR /app\nCOPY requirements.txt requirements.txt\nRUN pip install -r requirements.txt\nCOPY . .\nCMD [\"flask\", \"run\", \"--host=0.0.0.0\"]\n"

/-- Content of the project's `docker-compose.yml`. -/
def composeContent : String :=
  "version: \x273\x27\nservices:\n  web:\n    build: .\n    ports:\n      - \"5000:5000\"\n    volumes:\n      - .:/app\n    environment:\n      FLASK_ENV: development\n      FLASK_APP: main.py\n"

/-- Content of the CI workflow file `python-app.yml`. -/
def ciContent : String :=
  "name: Python application\n\non:\n  push:\n    branches: [ main ]\n  pull_request:\n    branches: [ main ]\n\njobs:\n  build:\n    runs-on: ubuntu-latest\n    strategy:\n      matrix:\n        python-version: [3.6, 3.7, 3.8, 3.9]\n\n    steps:\n    - uses: actions/checkout@v2\n    - name: Set up Python\n      uses: actions/setup-python@v2\n      with:\n        python-version: $\x7b\x7b matrix.python-version \x7d\x7d\n    - name: Install dependencies\n      run: |\n        python -m pip install --upgrade pip\n        pip install -r requirements.txt\n    - name: Test with pytest\n      run: |\n        pytest\n"

/-- Minimal embedding of `jinja2.Template(tpl).render(project_name=pn)`:
replaces every occurrence of the project-name placeholder. -/
def renderChars (pat rep : List Char) (s : List Char) : List Char :=
  match s with
  | [] => []
  | c :: cs =>
    if h : pat ≠ [] ∧ pat.isPrefixOf (c :: cs) then
      rep ++ renderChars pat rep ((c :: cs).drop pat.length)
    else
      c :: renderChars pat rep cs
termination_by s.length
decreasing_by
  · simp only [List.length_drop]
    cases pat with
    | nil => exact absurd rfl h.1
    | cons p ps => simp; omega
  · simp

def renderTemplate (tpl pn : String) : String :=
  String.mk (renderChars ("\x7b\x7b project_name \x7d\x7d").data pn.data tpl.data)

/-! ## The blueprint list processing and per-blueprint artifacts -/

/-- The blueprint names actually generated by `create_blueprints`:
each entry stripped, blank results skipped. -/
def processedBlueprints (bps : List String) : List String :=
  (bps.map pyStrip).filter (fun b => ¬ b = "")

/-- The filesystem operations `create_blueprints` + `create_blueprint_files`
perform for one blueprint, in source order: three directories, then the
four files. -/
def blueprintOps (pkg bp : String) : List FsOp :=
  [FsOp.mkDir (joinPath pkg bp),
   FsOp.mkDir (joinPath (joinPath pkg bp) "templates"),
   FsOp.mkDir (joinPath (joinPath pkg bp) "static"),
   FsOp.write (joinPath (joinPath pkg bp) "routes.py") (routesContent bp),
   FsOp.write (joinPath (joinPath pkg bp) "__init__.py") (bpInitContent bp),
   FsOp.write (joinPath (joinPath pkg bp) "forms.py") formsContent,
   FsOp.write (joinPath (joinPath (joinPath pkg bp) "templates") (bp ++ "_home.html"))
     (homeHtmlContent bp)]

def countMkdirs (ops : List FsOp) : Nat :=
  ops.countP (fun op => match op with | FsOp.mkDir _ => true | _ => false)

def countWrites (ops : List FsOp) : Nat :=
  ops.countP (fun op => match op with | FsOp.write _ _ => true | _ => false)

/-! ## Stage semantics

Each stage is a function `RunState → RunState × Option PyExc`; the second
component is an exception that escaped the stage (it is `none` when the
stage either succeeded or caught and logged its failure).  Suffix `F`
marks the `flaskforge.py` variant, suffix `G` marks the `fforge.py`
variant; stages whose code is identical in both files are shared. -/

/-- `os.makedirs` calls executed in sequence; an unsatisfiable directory
raises `OSError` and stops the sequence. -/
def mkdirsLoop (o : Oracle) : List String → List FsOp × Bool
  | [] => ([], true)
  | d :: ds =>
    if o.mkdirOk d then
      let r := mkdirsLoop o ds
      (FsOp.mkDir d :: r.1, r.2)
    else ([], false)

/-- The four directories of `create_directories`, in source order. -/
def scaffoldDirs (pp pkg : String) : List String :=
  [pp, pkg, joinPath pkg "templates", joinPath pkg "static"]

/-- `create_directories` in flaskforge.py: guarded by
`except OSError`, which logs and continues. -/
def createDirectoriesF (o : Oracle) (pp pkg : String) (st : RunState) :
    RunState × Option PyExc :=
  let st := withStage .createDirectories st
  let r := mkdirsLoop o (scaffoldDirs pp pkg)
  ({ st with ops := st.ops ++ r.1,
             errLog := st.errLog ++ (if r.2 then [] else ["Error creating directories"]) },
   none)

/-- `create_directories` in fforge.py: unguarded, an `OSError`
propagates. -/
def createDirectoriesG (o : Oracle) (pp pkg : String) (st : RunState) :
    RunState × Option PyExc :=
  let st := withStage .createDirectories st
  let r := mkdirsLoop o (scaffoldDirs pp pkg)
  ({ st with ops := st.ops ++ r.1 }, if r.2 then none else some PyExc.osError)

/-- The activation-command string computed after a successful
`python -m venv`, by platform. -/
def mkActivate (windows : Bool) (venv : String) : String :=
  if windows then joinPath (joinPath venv "Scripts") "activate"
  else "source " ++ joinPath (joinPath venv "bin") "activate"

/-- `create_virtualenv` in flaskforge.py: `subprocess.run(..., check=True)`
guarded by `except subprocess.CalledProcessError`; on failure
`self.activate_command` is never assigned. -/
def createEnvironmentF (o : Oracle) (venv : String) (st : RunState) :
    RunState × Option PyExc :=
  let st := withStage .createEnvironment st
  let st := { st with cmds := st.cmds ++ [ExtCmd.argv ["python", "-m", "venv", venv] none] }
  if o.venvCreateOk then
    ({ st with activate := some (mkActivate o.windows venv) }, none)
  else
    ({ st with errLog := st.errLog ++ ["Error creating virtual environment"] }, none)

/-- `create_virtualenv` in fforge.py: no `check=True`, so a non-zero exit
never raises and `self.activate_command` is always assigned. -/
def createEnvironmentG (o : Oracle) (venv : String) (st : RunState) :
    RunState × Option PyExc :=
  let st := withStage .createEnvironment st
  ({ st with cmds := st.cmds ++ [ExtCmd.argv ["python", "-m", "venv", venv] none],
             activate := some (mkActivate o.windows venv) },
   none)

/-- `install_dependencies` (flaskforge.py only): skipped when the
dependency list is empty; otherwise reads `self.activate_command`
(raising `AttributeError` when it was never assigned — the `except`
clause only catches `CalledProcessError`), then runs one `pip install`
command whose failure is caught and logged. -/
def installDependenciesF (o : Oracle) (deps : List String) (st : RunState) :
    RunState × Option PyExc :=
  let st := withStage .installDependencies st
  if deps.isEmpty then (st, none)
  else
    match st.activate with
    | none => (st, some PyExc.attributeError)
    | some a =>
      let c := a ++ " && pip install " ++ joinWith " " deps
      ({ st with cmds := st.cmds ++ [ExtCmd.shell c none],
                 errLog := st.errLog ++ (if o.cmdOk c then [] else ["Error installing dependencies"]) },
       none)

/-- Per-file body of the `create_base_files` walk: `os.makedirs` on the
destination's directory, open the source for reading, open the
destination for writing, render and write.  All unguarded: the first
failure raises out of the whole stage. -/
def renderLoop (o : Oracle) (pp tplRoot pn : String) : List String → List FsOp × Option PyExc
  | [] => ([], none)
  | f :: fs =>
    let dest := joinPath pp f
    let destDir := pyDirname dest
    if o.mkdirOk destDir then
      let src := joinPath tplRoot f
      if o.readOk src then
        if o.writeOk dest then
          let r := renderLoop o pp tplRoot pn fs
          (FsOp.mkDir destDir ::
             FsOp.write dest (renderTemplate (o.readContent src) pn) :: r.1,
           r.2)
        else ([FsOp.mkDir destDir], some PyExc.ioError)
      else ([FsOp.mkDir destDir], some PyExc.ioError)
    else ([], some PyExc.osError)

/-- `create_base_files` (identical in both source files): walks the
template set and renders each file into the project; no stage-level
guard. -/
def createBaseFiles (o : Oracle) (pp tplRoot pn : String) (st : RunState) :
    RunState × Option PyExc :=
  let st := withStage .renderTemplateSet st
  let r := renderLoop o pp tplRoot pn o.templateFiles
  ({ st with ops := st.ops ++ r.1 }, r.2)

/-- Executes a prescribed list of filesystem operations, raising at the
first one the environment refuses (`OSError` for a directory, `IOError`
for a file). -/
def opsLoop (o : Oracle) : List FsOp → List FsOp × Option PyExc
  | [] => ([], none)
  | op :: rest =>
    match op with
    | FsOp.mkDir p =>
      if o.mkdirOk p then
        let r := opsLoop o rest
        (FsOp.mkDir p :: r.1, r.2)
      else ([], some PyExc.osError)
    | FsOp.write p c =>
      if o.writeOk p then
        let r := opsLoop o rest
        (FsOp.write p c :: r.1, r.2)
      else ([], some PyExc.ioError)

/-- The loop of `create_blueprints` over the already stripped-and-filtered
names: directories and files for each blueprint in order, unguarded. -/
def blueprintGenLoop (o : Oracle) (pkg : String) :
    List String → List Stage × List FsOp × Option PyExc
  | [] => ([], [], none)
  | bp :: bps =>
    let r := opsLoop o (blueprintOps pkg bp)
    match r.2 with
    | some e => ([Stage.generateBlueprint bp], r.1, some e)
    | none =>
      let rest := blueprintGenLoop o pkg bps
      (Stage.generateBlueprint bp :: rest.1, r.1 ++ rest.2.1, rest.2.2)

/-- `create_blueprints` (identical in both source files). -/
def createBlueprints (o : Oracle) (pkg : String) (bps : List String) (st : RunState) :
    RunState × Option PyExc :=
  let r := blueprintGenLoop o pkg (processedBlueprints bps)
  ({ st with trace := st.trace ++ r.1, ops := st.ops ++ r.2.1 }, r.2.2)

/-- A stage that writes a fixed list of filesystem artifacts, unguarded
(`create_init_py`, `create_models_py`, `create_docker_files`,
`create_ci_cd_files`). -/
def writeArtifacts (s : Stage) (o : Oracle) (items : List FsOp) (st : RunState) :
    RunState × Option PyExc :=
  let st := withStage s st
  let r := opsLoop o items
  ({ st with ops := st.ops ++ r.1 }, r.2)

def createInitPy (o : Oracle) (pkg : String) : RunState → RunState × Option PyExc :=
  writeArtifacts .writeInitFile o [FsOp.write (joinPath pkg "__init__.py") appInitContent]

def createModelsPy (o : Oracle) (pkg : String) : RunState → RunState × Option PyExc :=
  writeArtifacts .writeModelsFile o [FsOp.write (joinPath pkg "models.py") modelsContent]

def createDockerFiles (o : Oracle) (pp : String) : RunState → RunState × Option PyExc :=
  writeArtifacts .writeDockerFiles o
    [FsOp.write (joinPath pp "Dockerfile") dockerfileContent,
     FsOp.write (joinPath pp "docker-compose.yml") composeContent]

def createCiCdFiles (o : Oracle) (pp : String) : RunState → RunState × Option PyExc :=
  writeArtifacts .writeCiFiles o
    [FsOp.mkDir (joinPath (joinPath pp ".github") "workflows"),
     FsOp.write (joinPath (joinPath (joinPath pp ".github") "workflows") "python-app.yml")
       ciContent]

/-- The three database-initialization command strings, in order. -/
def dbCmds (a : String) : List String :=
  [a ++ " && flask db init", a ++ " && flask db migrate", a ++ " && flask db upgrade"]

/-- Sequential `subprocess.run(..., check=True)` calls inside one `try`:
stops after the first failing command. -/
def dbLoopF (o : Oracle) (pp : String) : List String → List ExtCmd × Bool
  | [] => ([], true)
  | c :: cs =>
    if o.cmdOk c then
      let r := dbLoopF o pp cs
      (ExtCmd.shell c (some pp) :: r.1, r.2)
    else ([ExtCmd.shell c (some pp)], false)

/-- `initialize_database` in flaskforge.py: reads `self.activate_command`
inside a `try` that only catches `CalledProcessError`, so a missing
attribute raises; a failing command is caught and logged (skipping the
remaining commands of the stage). -/
def initializeDatabaseF (o : Oracle) (pp : String) (st : RunState) :
    RunState × Option PyExc :=
  let st := withStage .initializeDatabase st
  match st.activate with
  | none => (st, some PyExc.attributeError)
  | some a =>
    let r := dbLoopF o pp (dbCmds a)
    ({ st with cmds := st.cmds ++ r.1,
               errLog := st.errLog ++ (if r.2 then [] else ["Error initializing database"]) },
     none)

/-- `initialize_database` in fforge.py: no `check=True` and no guard, so
all three commands are always invoked and never raise. -/
def initializeDatabaseG (o : Oracle) (pp : String) (st : RunState) :
    RunState × Option PyExc :=
  let st := withStage .initializeDatabase st
  match st.activate with
  | none => (st, some PyExc.attributeError)
  | some a =>
    let invs := (dbCmds a).map (fun c => ExtCmd.shell c (some pp))
    ({ st with cmds := st.cmds ++ invs }, none)

/-- The command run for one post-generation hook. -/
def hookCmd (a h : String) : String :=
  a ++ " && " ++ pyStrip h

/-- The per-hook loop of `run_post_gen_hooks` in flaskforge.py: each hook
run with `check=True` inside its own `try`, whose failure is caught and
logged before the loop continues. -/
def hooksLoopF (o : Oracle) (pp a : String) : List String → List ExtCmd × List String
  | [] => ([], [])
  | h :: hs =>
    let c := hookCmd a h
    let r := hooksLoopF o pp a hs
    (ExtCmd.shell c (some pp) :: r.1,
     (if o.cmdOk c then [] else ["Error running post-generation hook"]) ++ r.2)

/-- `run_post_gen_hooks` in flaskforge.py: skipped for an empty hook
string; reads `self.activate_command` inside the first hook's `try`
(raising `AttributeError` when unset, which the `except` clause does not
catch); failing hooks are logged and do not stop the loop. -/
def runPostGenHooksF (o : Oracle) (pp hooks : String) (st : RunState) :
    RunState × Option PyExc :=
  let st := withStage .runPostGenHooks st
  if hooks = "" then (st, none)
  else
    match st.activate with
    | none => (st, some PyExc.attributeError)
    | some a =>
      let r := hooksLoopF o pp a (pySplit hooks ',')
      ({ st with cmds := st.cmds ++ r.1, errLog := st.errLog ++ r.2 }, none)

/-- `run_post_gen_hooks` in fforge.py: no `check=True`, so every hook is
invoked and none raises. -/
def runPostGenHooksG (o : Oracle) (pp hooks : String) (st : RunState) :
    RunState × Option PyExc :=
  let st := withStage .runPostGenHooks st
  if hooks = "" then (st, none)
  else
    match st.activate with
    | none => (st, some PyExc.attributeError)
    | some a =>
      let invs := (pySplit hooks ',').map (fun h => ExtCmd.shell (hookCmd a h) (some pp))
      ({ st with cmds := st.cmds ++ invs }, none)

/-- The final `logger.info(... created successfully)` of `run`. -/
def finishStage (st : RunState) : RunState × Option PyExc :=
  (withStage .done st, none)

/-! ## The two pipelines -/

/-- Sequencing of stages as in `run`: there is no guard in `run` itself,
so the first exception that escapes a stage aborts the remaining
stages. -/
def stageChain : List (RunState → RunState × Option PyExc) → RunState →
    RunState × Option PyExc
  | [], st => (st, none)
  | f :: fs, st =>
    match f st with
    | (st2, none) => stageChain fs st2
    | (st2, some e) => (st2, some e)

/-- `FlaskForge.run` of src/flaskforge.py, with the path attributes
computed as in `__init__`. -/
def runFlaskforge (cfg : Config) (o : Oracle) : RunState × Option PyExc :=
  let pp := joinPath o.cwd cfg.projectName
  let pkg := joinPath pp cfg.projectName
  let venv := computeVenvDir pp cfg.venvDir
  let tplRoot := joinPath (joinPath o.installDir "templates") cfg.template
  stageChain
    [createDirectoriesF o pp pkg,
     createEnvironmentF o venv,
     installDependenciesF o cfg.dependencies,
     createBaseFiles o pp tplRoot cfg.projectName,
     createBlueprints o pkg cfg.blueprints,
     createInitPy o pkg,
     createModelsPy o pkg,
     createDockerFiles o pp,
     createCiCdFiles o pp,
     initializeDatabaseF o pp,
     runPostGenHooksF o pp cfg.postGenHooks,
     finishStage]
    initState

/-- `FlaskForge.run` of src/fforge.py: same pipeline except that there is
no dependency-installation stage and the unguarded stage variants are
used. -/
def runFforge (cfg : Config) (o : Oracle) : RunState × Option PyExc :=
  let pp := joinPath o.cwd cfg.projectName
  let pkg := joinPath pp cfg.projectName
  let venv := computeVenvDir pp cfg.venvDir
  let tplRoot := joinPath (joinPath o.installDir "templates") cfg.template
  stageChain
    [createDirectoriesG o pp pkg,
     createEnvironmentG o venv,
     createBaseFiles o pp tplRoot cfg.projectName,
     createBlueprints o pkg cfg.blueprints,
     createInitPy o pkg,
     createModelsPy o pkg,
     createDockerFiles o pp,
     createCiCdFiles o pp,
     initializeDatabaseG o pp,
     runPostGenHooksG o pp cfg.postGenHooks,
     finishStage]
    initState

/-! ## Derived run observations and expected stage orders -/

/-- The stage order of `FlaskForge.run` in src/flaskforge.py. -/
def fullTraceF (bps : List String) : List Stage :=
  [Stage.createDirectories, Stage.createEnvironment, Stage.installDependencies,
   Stage.renderTemplateSet] ++
    (processedBlueprints bps).map Stage.generateBlueprint ++
    [Stage.writeInitFile, Stage.writeModelsFile, Stage.writeDockerFiles,
     Stage.writeCiFiles, Stage.initializeDatabase, Stage.runPostGenHooks, Stage.done]

/-- The stage order of `FlaskForge.run` in src/fforge.py (it has no
dependency-installation stage). -/
def fullTraceG (bps : List String) : List Stage :=
  [Stage.createDirectories, Stage.createEnvironment, Stage.renderTemplateSet] ++
    (processedBlueprints bps).map Stage.generateBlueprint ++
    [Stage.writeInitFile, Stage.writeModelsFile, Stage.writeDockerFiles,
     Stage.writeCiFiles, Stage.initializeDatabase, Stage.runPostGenHooks, Stage.done]

/-! ## Filesystem semantics of the performed operations -/

/-- Effect of one operation on a filesystem (paths to file contents):
`open(p, 'w')` followed by a full write replaces the content. -/
def applyOp (fs : String → Option String) : FsOp → String → Option String
  | FsOp.mkDir _ => fs
  | FsOp.write p c => fun q => if q = p then some c else fs q

def applyOps (fs : String → Option String) (l : List FsOp) : String → Option String :=
  l.foldl applyOp fs

/-- The last content written to `q` by the operation list, if any. -/
def lastVal : List FsOp → String → Option String
  | [], _ => none
  | op :: rest, q =>
    match lastVal rest q with
    | some c => some c
    | none =>
      match op with
      | FsOp.write p c => if q = p then some c else none
      | FsOp.mkDir _ => none

/-- The filesystem operations performed by one invocation of the
template-rendering stage. -/
def renderStageOps (cfg : Config) (o : Oracle) : List FsOp :=
  (renderLoop o (joinPath o.cwd cfg.projectName)
    (joinPath (joinPath o.installDir "templates") cfg.template)
    cfg.projectName o.templateFiles).1

/-! ## Concrete fixtures -/

/-- An environment in which every operation succeeds and the template set
is empty. -/
def oracleAllOk : Oracle :=
  ⟨"/w", "/inst", false, fun _ => true, true, fun _ => true, [],
   fun _ => true, fun _ => "", fun _ => true⟩

/-- Same environment, but `python -m venv` exits non-zero. -/
def oracleEnvFail : Oracle := { oracleAllOk with venvCreateOk := false }

/-- Environment with one template file whose source is unreadable. -/
def oracleBadRead : Oracle :=
  { oracleAllOk with
      templateFiles := ["config.py"],
      readOk := fun p => !(p == "/inst/templates/rest_api/config.py") }

/-- Environment in which the shell command `ACT && false` exits non-zero
and everything else succeeds. -/
def oracleHookFail : Oracle :=
  { oracleAllOk with cmdOk := fun c => !(c == "ACT && false") }

/-- A configuration with one declared dependency and nothing else. -/
def cfgDeps : Config := ⟨"app", [], ["Flask"], 0, "rest_api", "", "", none⟩

/-- A configuration with no dependencies, blueprints or hooks. -/
def cfgPlain : Config := ⟨"app", [], [], 0, "rest_api", "", "", none⟩

/-- The §8 scenario configuration: project `shop`, blueprints
`catalog,cart`, template `rest_api`, no dependencies. -/
def cfgShop : Config :=
  ⟨"shop", ["catalog", "cart"], [], 0, "rest_api", "", "", none⟩

/-- An all-success environment rooted at an arbitrary working
directory. -/
def oracleAt (cwd : String) : Oracle := { oracleAllOk with cwd := cwd }

/-- A run state in which the activation command has been set to `ACT`. -/
def stActivated : RunState := { initState with activate := some "ACT" }

/-! ## Helper lemmas -/

theorem joinPath_ne_empty (a b : String) (hb : ¬ b = "") (hb2 : pyIsAbs b = false) :
    ¬ joinPath a b = "" := by
  unfold joinPath
  rw [if_neg (by simp [hb2])]
  by_cases ha : a = ""
  · simp [ha, hb]
  · rw [if_neg ha]
    intro h
    apply_fun String.length at h
    have h1 : ("/" : String).length = 1 := rfl
    simp [String.length_append, h1] at h

theorem computeVenvDir_eq (pp : String) (v : Option String) :
    computeVenvDir pp v = joinPath pp ".fforge" := by
  unfold computeVenvDir
  exact if_neg (joinPath_ne_empty pp ".fforge" (by decide) (by decide))

theorem joinPath_of_ne (a b : String) (ha : ¬ a = "") (hb : pyIsAbs b = false) :
    joinPath a b = a ++ "/" ++ b := by
  unfold joinPath
  rw [if_neg (by simp [hb]), if_neg ha]

theorem mkdirsLoop_ok (o : Oracle) (hm : ∀ p, o.mkdirOk p = true) :
    ∀ ds, mkdirsLoop o ds = (ds.map FsOp.mkDir, true) := by
  intro ds
  induction ds with
  | nil => rfl
  | cons d ds ih => simp [mkdirsLoop, hm, ih]

theorem opsLoop_ok (o : Oracle) (hm : ∀ p, o.mkdirOk p = true)
    (hw : ∀ p, o.writeOk p = true) :
    ∀ ops, opsLoop o ops = (ops, none) := by
  intro ops
  induction ops with
  | nil => rfl
  | cons op rest ih => cases op <;> simp [opsLoop, hm, hw, ih]

theorem renderLoop_exc (o : Oracle)
    (hm : ∀ p, o.mkdirOk p = true) (hr : ∀ p, o.readOk p = true)
    (hw : ∀ p, o.writeOk p = true) :
    ∀ pp tplRoot pn fs, (renderLoop o pp tplRoot pn fs).2 = none := by
  intro pp tplRoot pn fs
  induction fs with
  | nil => rfl
  | cons f fs ih => simp [renderLoop, hm, hr, hw, ih]

theorem blueprintGenLoop_fst (o : Oracle)
    (hm : ∀ p, o.mkdirOk p = true) (hw : ∀ p, o.writeOk p = true) :
    ∀ pkg l, (blueprintGenLoop o pkg l).1 = l.map Stage.generateBlueprint := by
  intro pkg l
  induction l with
  | nil => rfl
  | cons bp bps ih => simp [blueprintGenLoop, opsLoop_ok o hm hw, ih]

theorem blueprintGenLoop_ops (o : Oracle)
    (hm : ∀ p, o.mkdirOk p = true) (hw : ∀ p, o.writeOk p = true) :
    ∀ pkg l, (blueprintGenLoop o pkg l).2.1 = (l.map (blueprintOps pkg)).flatten := by
  intro pkg l
  induction l with
  | nil => rfl
  | cons bp bps ih => simp [blueprintGenLoop, opsLoop_ok o hm hw, ih]

theorem blueprintGenLoop_exc (o : Oracle)
    (hm : ∀ p, o.mkdirOk p = true) (hw : ∀ p, o.writeOk p = true) :
    ∀ pkg l, (blueprintGenLoop o pkg l).2.2 = none := by
  intro pkg l
  induction l with
  | nil => rfl
  | cons bp bps ih => simp [blueprintGenLoop, opsLoop_ok o hm hw, ih]

theorem hooksLoopF_cmds (o : Oracle) (pp a : String) :
    ∀ l, (hooksLoopF o pp a l).1 = l.map (fun h => ExtCmd.shell (hookCmd a h) (some pp)) := by
  intro l
  induction l with
  | nil => rfl
  | cons h hs ih => simp [hooksLoopF, ih]

theorem applyOps_point :
    ∀ (l : List FsOp) (fs : String → Option String) (q : String),
      applyOps fs l q = match lastVal l q with | some c => some c | none => fs q := by
  intro l
  induction l with
  | nil => intro fs q; rfl
  | cons op rest ih =>
    intro fs q
    have hstep : applyOps fs (op :: rest) = applyOps (applyOp fs op) rest := rfl
    rw [hstep, ih]
    cases hlv : lastVal rest q with
    | some c => simp [lastVal, hlv]
    | none =>
      cases op with
      | mkDir p => simp [lastVal, hlv, applyOp]
      | write p c =>
        by_cases hq : q = p
        · subst hq
          simp [lastVal, hlv, applyOp]
        · simp [lastVal, hlv, applyOp, hq]

theorem applyOps_idem (l : List FsOp) (fs : String → Option String) :
    applyOps (applyOps fs l) l = applyOps fs l := by
  funext q
  rw [applyOps_point, applyOps_point]
  cases h : lastVal l q <;> simp [h]

/-! ## Claims -/

/-- Claim C2: for every configuration, including one supplying an
alternate environment directory via the `venv_dir` option, the
environment path is exactly the fixed `.fforge` subfolder of the project
root, and both pipelines are entirely independent of the configured
`venv_dir` value (it is never used). -/
theorem venvDir_always_fixed (cfg : Config) (o : Oracle) (v : Option String) :
    computeVenvDir (joinPath o.cwd cfg.projectName) v
        = joinPath (joinPath o.cwd cfg.projectName) ".fforge"
    ∧ runFlaskforge { cfg with venvDir := v } o = runFlaskforge cfg o
    ∧ runFforge { cfg with venvDir := v } o = runFforge cfg o := by
  refine ⟨computeVenvDir_eq _ _, ?_, ?_⟩ <;>
    simp [runFlaskforge, runFforge, computeVenvDir_eq]

/-- Claim C9: the verbosity-to-log-level mapping is CRITICAL, ERROR,
WARNING, INFO, DEBUG for 0..4 and INFO for every other integer. -/
theorem verbosity_log_levels :
    setupLogLevel 0 = CRITICAL ∧ setupLogLevel 1 = ERROR ∧
    setupLogLevel 2 = WARNING ∧ setupLogLevel 3 = INFO ∧
    setupLogLevel 4 = DEBUG ∧
    ∀ v : Int, ¬ v = 0 → ¬ v = 1 → ¬ v = 2 → ¬ v = 3 → ¬ v = 4 →
      setupLogLevel v = INFO := by
  refine ⟨by decide, by decide, by decide, by decide, by decide, ?_⟩
  intro v h0 h1 h2 h3 h4
  have e0 : (v == (0 : Int)) = false := beq_eq_false_iff_ne.mpr h0
  have e1 : (v == (1 : Int)) = false := beq_eq_false_iff_ne.mpr h1
  have e2 : (v == (2 : Int)) = false := beq_eq_false_iff_ne.mpr h2
  have e3 : (v == (3 : Int)) = false := beq_eq_false_iff_ne.mpr h3
  have e4 : (v == (4 : Int)) = false := beq_eq_false_iff_ne.mpr h4
  simp [setupLogLevel, logLevels, List.lookup, e0, e1, e2, e3, e4]

/-- Witness for C9 at out-of-range verbosity values. -/
theorem verbosity_log_levels_witness :
    setupLogLevel 7 = INFO ∧ setupLogLevel (-3) = INFO :=
  ⟨verbosity_log_levels.2.2.2.2.2 7 (by decide) (by decide) (by decide) (by decide) (by decide),
   verbosity_log_levels.2.2.2.2.2 (-3) (by decide) (by decide) (by decide) (by decide) (by decide)⟩

/-- Claim C8: template rendering is idempotent — applying the rendering
stage's filesystem operations twice leaves every destination file with
exactly the content a single application produces (files are overwritten
in place, never appended to). -/
theorem render_idempotent (cfg : Config) (o : Oracle) (fs : String → Option String) :
    applyOps (applyOps fs (renderStageOps cfg o)) (renderStageOps cfg o)
      = applyOps fs (renderStageOps cfg o) :=
  applyOps_idem (renderStageOps cfg o) fs

/-- Claim C7: with the activation command set, the hooks stage invokes
one shell command per comma-separated hook, in declared order, each
trimmed, prefixed with the activation command and scoped to the project
directory; the invocation list does not depend on which commands fail
(a non-zero hook never prevents a later hook), and no exception escapes
the stage. -/
theorem hooks_run_in_order (o o2 : Oracle) (pp a hooks : String) (st : RunState)
    (ha : st.activate = some a) (hs : ¬ hooks = "") :
    (runPostGenHooksF o pp hooks st).2 = none
    ∧ (runPostGenHooksF o pp hooks st).1.cmds
        = st.cmds ++ (pySplit hooks ',').map
            (fun h => ExtCmd.shell (a ++ " && " ++ pyStrip h) (some pp))
    ∧ (runPostGenHooksF o pp hooks st).1.cmds = (runPostGenHooksF o2 pp hooks st).1.cmds := by
  refine ⟨?_, ?_, ?_⟩ <;>
    simp [runPostGenHooksF, withStage, hs, ha, hooksLoopF_cmds, hookCmd]

/-- Witness for C7: for the hook list `echo a,false,echo b` under an
environment where `ACT && false` exits non-zero, all three commands are
invoked in order — `echo b` runs despite the failure of `false`. -/
theorem hooks_run_in_order_witness :
    (runPostGenHooksF oracleHookFail "/w/app" "echo a,false,echo b" stActivated).1.cmds
        = [ExtCmd.shell "ACT && echo a" (some "/w/app"),
           ExtCmd.shell "ACT && false" (some "/w/app"),
           ExtCmd.shell "ACT && echo b" (some "/w/app")]
    ∧ (runPostGenHooksF oracleHookFail "/w/app" "echo a,false,echo b" stActivated).2 = none := by
  have h := hooks_run_in_order oracleHookFail oracleHookFail "/w/app" "ACT"
    "echo a,false,echo b" stActivated rfl (by decide)
  exact ⟨by rw [h.2.1]; decide, h.1⟩

/-- Claim C10: for a non-empty hook string the number of invoked commands
equals the number of comma-separated segments including blank ones; a
trailing comma yields an extra command consisting of the activation
command and the `&&` separator only. -/
theorem hooks_blank_segments_not_skipped (o : Oracle) (pp a hooks : String) (st : RunState)
    (ha : st.activate = some a) (hs : ¬ hooks = "") :
    (runPostGenHooksF o pp hooks st).1.cmds.length
        = st.cmds.length + (pySplit hooks ',').length
    ∧ (runPostGenHooksF o pp "echo a," st).1.cmds
        = st.cmds ++ [ExtCmd.shell (a ++ " && echo a") (some pp),
                      ExtCmd.shell (a ++ " && ") (some pp)] := by
  constructor
  · simp [runPostGenHooksF, withStage, hs, ha, hooksLoopF_cmds]
  · have hsplit : pySplit "echo a," ',' = ["echo a", ""] := by decide
    have ht1 : pyStrip "echo a" = "echo a" := by decide
    have ht2 : pyStrip "" = "" := rfl
    have hm1 : (" && " : String) ++ "echo a" = " && echo a" := by decide
    simp [runPostGenHooksF, withStage, ha, hooksLoopF_cmds, hookCmd, hsplit, ht1, ht2,
      String.append_assoc, hm1]

/-- Witness for C10: concrete instance with a trailing comma. -/
theorem hooks_blank_segments_not_skipped_witness :
    (runPostGenHooksF oracleAllOk "/w/app" "echo a," stActivated).1.cmds
        = [ExtCmd.shell "ACT && echo a" (some "/w/app"),
           ExtCmd.shell "ACT && " (some "/w/app")] := by
  have h := hooks_blank_segments_not_skipped oracleAllOk "/w/app" "ACT" "x" stActivated
    rfl (by decide)
  rw [h.2]
  decide

theorem append_slash_ne_empty (a b : String) : ¬ (a ++ "/" ++ b) = "" := by
  intro h
  apply_fun String.length at h
  have h1 : ("/" : String).length = 1 := rfl
  simp [String.length_append, h1] at h

/-- Claim C3: for a blueprint list whose stripped, non-blank entries
number N, the blueprint-generation stage performs exactly N blueprint
generations; each generation creates exactly 3 directories and 4 files,
rooted at the blueprint's directory under the package root, and each
generated routes file contains a route decorator with path
`/<name>_home` for the exact trimmed name. -/
theorem blueprint_generation_counts (o : Oracle) (pkg : String) (bps : List String) (N : Nat)
    (hm : ∀ p, o.mkdirOk p = true) (hw : ∀ p, o.writeOk p = true)
    (hN : (processedBlueprints bps).length = N) :
    (blueprintGenLoop o pkg (processedBlueprints bps)).1.length = N
    ∧ (blueprintGenLoop o pkg (processedBlueprints bps)).2.2 = none
    ∧ ∀ bp ∈ processedBlueprints bps,
        countMkdirs (blueprintOps pkg bp) = 3
        ∧ countWrites (blueprintOps pkg bp) = 4
        ∧ (blueprintOps pkg bp).head? = some (FsOp.mkDir (joinPath pkg bp))
        ∧ FsOp.write (joinPath (joinPath pkg bp) "routes.py") (routesContent bp)
            ∈ (blueprintGenLoop o pkg (processedBlueprints bps)).2.1
        ∧ strContains (routesContent bp) (routeDecorator bp) := by
  refine ⟨?_, blueprintGenLoop_exc o hm hw pkg _, ?_⟩
  · rw [blueprintGenLoop_fst o hm hw]
    simp [hN]
  · intro bp hbp
    refine ⟨?_, ?_, rfl, ?_, ?_⟩
    · simp [countMkdirs, blueprintOps, List.countP_cons, List.countP_nil]
    · simp [countWrites, blueprintOps, List.countP_cons, List.countP_nil]
    · rw [blueprintGenLoop_ops o hm hw]
      refine List.mem_flatten.mpr ⟨blueprintOps pkg bp, ?_, ?_⟩
      · exact List.mem_map_of_mem _ hbp
      · simp [blueprintOps]
    · exact ⟨"from flask import Blueprint, render_template\n" ++ bp ++
        " = Blueprint(\x27" ++ bp ++
        "\x27, __name__, template_folder=\x27templates\x27, static_folder=\x27static\x27)\n\n",
        "\ndef " ++ bp ++ "_home():\n    return render_template(\x27" ++ bp ++ "/" ++ bp ++
        "_home.html\x27)\n", rfl⟩

/-- Witness for C3: `["catalog", " cart ", ""]` yields exactly the two
blueprints `catalog` and `cart`. -/
theorem blueprint_generation_counts_witness :
    (blueprintGenLoop oracleAllOk "/w/shop/shop"
        (processedBlueprints ["catalog", " cart ", ""])).1.length = 2
    ∧ countMkdirs (blueprintOps "/w/shop/shop" "cart") = 3
    ∧ countWrites (blueprintOps "/w/shop/shop" "cart") = 4 := by
  have h := blueprint_generation_counts oracleAllOk "/w/shop/shop" ["catalog", " cart ", ""] 2
    (fun _ => rfl) (fun _ => rfl) (by decide)
  have hmem : "cart" ∈ processedBlueprints ["catalog", " cart ", ""] := by decide
  exact ⟨h.1, (h.2.2 "cart" hmem).1, (h.2.2 "cart" hmem).2.1⟩

/-- Claim C6: every blueprint's child template contains a heading with the
capitalized name; in the `shop` scenario with blueprints `catalog,cart`,
the file `shop/shop/cart/templates/cart_home.html` is generated and
contains the heading text `Welcome to the Cart Home Page`. -/
theorem blueprint_home_heading (bp : String) (hbp : ¬ bp = "") (htrim : pyStrip bp = bp)
    (cwd : String) (hcwd : ¬ cwd = "") :
    strContains (homeHtmlContent bp)
        ("<h1>Welcome to the " ++ pyCapitalize bp ++ " Home Page</h1>")
    ∧ strContains (homeHtmlContent "cart") "Welcome to the Cart Home Page"
    ∧ FsOp.write
        (joinPath (joinPath (joinPath (joinPath (joinPath cwd "shop") "shop") "cart")
          "templates") "cart_home.html")
        (homeHtmlContent "cart")
        ∈ (blueprintGenLoop (oracleAt cwd) (joinPath (joinPath cwd "shop") "shop")
            (processedBlueprints ["catalog", "cart"])).2.1
    ∧ joinPath (joinPath (joinPath (joinPath (joinPath cwd "shop") "shop") "cart")
          "templates") "cart_home.html"
        = cwd ++ "/shop/shop/cart/templates/cart_home.html" := by
  refine ⟨?_, ?_, ?_, ?_⟩
  · exact ⟨"\x7b% extends \"base.html\" %\x7d\n\x7b% block content %\x7d\n",
      "\n\x7b% endblock %\x7d\n", rfl⟩
  · refine ⟨"\x7b% extends \"base.html\" %\x7d\n\x7b% block content %\x7d\n<h1>",
      "</h1>\n\x7b% endblock %\x7d\n", ?_⟩
    decide
  · rw [blueprintGenLoop_ops (oracleAt cwd) (fun _ => rfl) (fun _ => rfl)]
    have hpb : processedBlueprints ["catalog", "cart"] = ["catalog", "cart"] := by decide
    refine List.mem_flatten.mpr ⟨blueprintOps (joinPath (joinPath cwd "shop") "shop") "cart",
      ?_, ?_⟩
    · simp [hpb]
    · have hcat : ("cart" : String) ++ "_home.html" = "cart_home.html" := rfl
      simp [blueprintOps, hcat]
  · have h1 : joinPath cwd "shop" = cwd ++ "/" ++ "shop" :=
      joinPath_of_ne cwd "shop" hcwd (by decide)
    rw [h1]
    rw [joinPath_of_ne _ "shop" (append_slash_ne_empty _ _) (by decide)]
    rw [joinPath_of_ne _ "cart" (append_slash_ne_empty _ _) (by decide)]
    rw [joinPath_of_ne _ "templates" (append_slash_ne_empty _ _) (by decide)]
    rw [joinPath_of_ne _ "cart_home.html" (append_slash_ne_empty _ _) (by decide)]
    simp only [String.append_assoc]
    congr 1

/-- Claim C4 (amended): when environment creation and all filesystem
operations succeed — external shell commands may still fail — the
flaskforge.py pipeline attempts exactly the fixed linear order
createDirectories, createEnvironment, installDependencies,
renderTemplateSet, one generateBlueprint per processed blueprint in list
order, writeInitFile, writeModelsFile, writeDockerFiles, writeCiFiles,
initializeDatabase, runPostGenHooks, and terminates normally; the
fforge.py pipeline attempts the same order except that it has no
installDependencies stage at all. -/
theorem stage_order_amended (cfg : Config) (o : Oracle)
    (hv : o.venvCreateOk = true)
    (hm : ∀ p, o.mkdirOk p = true)
    (hr : ∀ p, o.readOk p = true)
    (hw : ∀ p, o.writeOk p = true) :
    (runFlaskforge cfg o).1.trace = fullTraceF cfg.blueprints
    ∧ (runFlaskforge cfg o).2 = none
    ∧ (runFforge cfg o).1.trace = fullTraceG cfg.blueprints
    ∧ (runFforge cfg o).2 = none := by
  by_cases hd : cfg.dependencies.isEmpty <;> by_cases hh : cfg.postGenHooks = "" <;>
    refine ⟨?_, ?_, ?_, ?_⟩ <;>
    simp [runFlaskforge, runFforge, stageChain, createDirectoriesF, createDirectoriesG,
      createEnvironmentF, createEnvironmentG, installDependenciesF, createBaseFiles,
      createBlueprints, createInitPy, createModelsPy, createDockerFiles, createCiCdFiles,
      writeArtifacts, initializeDatabaseF, initializeDatabaseG, runPostGenHooksF,
      runPostGenHooksG, finishStage, withStage, initState,
      mkdirsLoop_ok o hm, opsLoop_ok o hm hw, renderLoop_exc o hm hr hw,
      blueprintGenLoop_fst o hm hw, blueprintGenLoop_exc o hm hw,
      hv, hd, hh, fullTraceF, fullTraceG]

/-- Counterexample for C4: a fforge.py run in which every operation
succeeds runs to completion without ever attempting the
dependency-installation stage, although a dependency is declared — the
claimed fixed order (which includes installDependencies in every run)
does not hold for this pipeline. -/
theorem stage_order_counterexample :
    (runFforge cfgDeps oracleAllOk).2 = none
    ∧ Stage.done ∈ (runFforge cfgDeps oracleAllOk).1.trace
    ∧ Stage.installDependencies ∉ (runFforge cfgDeps oracleAllOk).1.trace := by
  decide

/-- Witness for C4 (amended) at a concrete configuration. -/
theorem stage_order_amended_witness :
    (runFlaskforge cfgPlain oracleAllOk).1.trace = fullTraceF cfgPlain.blueprints
    ∧ (runFforge cfgPlain oracleAllOk).1.trace = fullTraceG cfgPlain.blueprints := by
  have h := stage_order_amended cfgPlain oracleAllOk rfl (fun _ => rfl) (fun _ => rfl)
    (fun _ => rfl)
  exact ⟨h.1, h.2.2.1⟩

/-- Counterexample for C1: with a declared dependency, a run in which
environment creation fails (a forced ProcessError) aborts with an
uncaught `AttributeError` at the dependency-install stage: the pipeline
does not reach its terminal stage and the process exits 1, not 0 —
even though the environment-creation failure itself was caught and
logged. -/
theorem failure_isolation_counterexample :
    (runFlaskforge cfgDeps oracleEnvFail).2 = some PyExc.attributeError
    ∧ exitCode (runFlaskforge cfgDeps oracleEnvFail) = 1
    ∧ Stage.done ∉ (runFlaskforge cfgDeps oracleEnvFail).1.trace
    ∧ (runFlaskforge cfgDeps oracleEnvFail).1.trace
        = [Stage.createDirectories, Stage.createEnvironment, Stage.installDependencies]
    ∧ "Error creating virtual environment" ∈ (runFlaskforge cfgDeps oracleEnvFail).1.errLog := by
  decide

/-- Claim C1 (amended): the environment-creation failure itself is caught
and logged, but the ActivationPrefix is then never set and the first
later stage that reads it (dependency install when dependencies are
declared, otherwise database initialization) raises an uncaught
`AttributeError` that propagates to the top level: the pipeline never
reaches its terminal stage and the process exits 1. -/
theorem failure_isolation_amended (cfg : Config) (o : Oracle)
    (hv : o.venvCreateOk = false)
    (hm : ∀ p, o.mkdirOk p = true)
    (hr : ∀ p, o.readOk p = true)
    (hw : ∀ p, o.writeOk p = true) :
    (runFlaskforge cfg o).2 = some PyExc.attributeError
    ∧ exitCode (runFlaskforge cfg o) = 1
    ∧ Stage.done ∉ (runFlaskforge cfg o).1.trace
    ∧ "Error creating virtual environment" ∈ (runFlaskforge cfg o).1.errLog := by
  by_cases hd : cfg.dependencies.isEmpty <;>
    refine ⟨?_, ?_, ?_, ?_⟩ <;>
    simp [runFlaskforge, stageChain, createDirectoriesF, createEnvironmentF,
      installDependenciesF, createBaseFiles, createBlueprints, createInitPy, createModelsPy,
      createDockerFiles, createCiCdFiles, writeArtifacts, initializeDatabaseF,
      runPostGenHooksF, finishStage, withStage, initState, exitCode,
      mkdirsLoop_ok o hm, opsLoop_ok o hm hw, renderLoop_exc o hm hr hw,
      blueprintGenLoop_fst o hm hw, blueprintGenLoop_exc o hm hw, hv, hd]

/-- Witness for C1 (amended) at a concrete configuration with no
declared dependencies: the crash then happens at database
initialization. -/
theorem failure_isolation_amended_witness :
    (runFlaskforge cfgPlain oracleEnvFail).2 = some PyExc.attributeError
    ∧ exitCode (runFlaskforge cfgPlain oracleEnvFail) = 1 := by
  have h := failure_isolation_amended cfgPlain oracleEnvFail rfl (fun _ => rfl)
    (fun _ => rfl) (fun _ => rfl)
  exact ⟨h.1, h.2.1⟩

/-- Counterexample for C5: with one template file whose source is
unreadable, the rendering failure is not logged (the error log stays
empty) and the exception propagates out of the rendering stage,
aborting the pipeline instead of continuing to the next stage. -/
theorem render_failure_counterexample :
    (runFlaskforge cfgPlain oracleBadRead).2 = some PyExc.ioError
    ∧ (runFlaskforge cfgPlain oracleBadRead).1.errLog = []
    ∧ Stage.done ∉ (runFlaskforge cfgPlain oracleBadRead).1.trace
    ∧ Stage.writeInitFile ∉ (runFlaskforge cfgPlain oracleBadRead).1.trace := by
  decide

/-- Claim C5 (amended): an unreadable source template file or an
unwritable destination file raises an uncaught exception out of the
rendering stage: the pipeline aborts there (later stages are never
attempted) instead of logging and continuing. -/
theorem render_failure_amended (cfg : Config) (o : Oracle) (f : String) (fs : List String)
    (htf : o.templateFiles = f :: fs)
    (hv : o.venvCreateOk = true)
    (hm : ∀ p, o.mkdirOk p = true)
    (hbad : o.readOk (joinPath (joinPath (joinPath o.installDir "templates") cfg.template) f)
              = false
            ∨ (o.readOk (joinPath (joinPath (joinPath o.installDir "templates") cfg.template) f)
                = true
               ∧ o.writeOk (joinPath (joinPath o.cwd cfg.projectName) f) = false)) :
    (runFlaskforge cfg o).2 = some PyExc.ioError
    ∧ (runFlaskforge cfg o).1.trace
        = [Stage.createDirectories, Stage.createEnvironment, Stage.installDependencies,
           Stage.renderTemplateSet]
    ∧ Stage.done ∉ (runFlaskforge cfg o).1.trace := by
  by_cases hd : cfg.dependencies.isEmpty <;>
    rcases hbad with hb | hb <;>
    refine ⟨?_, ?_, ?_⟩ <;>
    simp [runFlaskforge, stageChain, createDirectoriesF, createEnvironmentF,
      installDependenciesF, createBaseFiles, renderLoop, withStage, initState,
      mkdirsLoop_ok o hm, hm, hv, hd, htf, hb]

/-- Witness for C5 (amended) at a concrete configuration. -/
theorem render_failure_amended_witness :
    (runFlaskforge cfgPlain oracleBadRead).2 = some PyExc.ioError
    ∧ Stage.done ∉ (runFlaskforge cfgPlain oracleBadRead).1.trace := by
  have h := render_failure_amended cfgPlain oracleBadRead "config.py" [] rfl rfl
    (fun _ => rfl) (Or.inl rfl)
  exact ⟨h.1, h.2.2⟩

/-- Witness for C6 at the concrete working directory `/w`. -/
theorem blueprint_home_heading_witness :
    strContains (homeHtmlContent "cart") "Welcome to the Cart Home Page"
    ∧ joinPath (joinPath (joinPath (joinPath (joinPath "/w" "shop") "shop") "cart")
          "templates") "cart_home.html"
        = "/w/shop/shop/cart/templates/cart_home.html" := by
  have h := blueprint_home_heading "cart" (by decide) (by decide) "/w" (by decide)
  refine ⟨h.2.1, ?_⟩
  rw [h.2.2.2]
  decide
